import Mathlib

/-!
Shallow embedding of the Ansible modules cloud/amazon/rds_snapshot.py and
cloud/amazon/rds_facts.py.

Conventions of the embedding:
* Provider (boto3 rds client) calls are oracle functions collected in a
  Conn value; every call actually issued is recorded in a ProviderCall trace.
* Python exceptions are values of PyErr; a try/except block is a match.
* module.exit_json and module.fail_json terminate the invocation and become
  constructors of ModuleResult; an uncaught Python exception is
  ModuleResult.crash.
* Evaluation of a bare global name consults the module namespace
  (rdsSnapshotModuleGlobals). The source calls two names that are not bound
  anywhere in the module or in the star imports: RDS2Snapshot (line 86) and
  params (line 174). Evaluating them raises NameError.
* Time is a natural number of seconds; time.sleep 5 advances it by 5 and
  provider calls take no time.
-/

/-- Keys of the provider snapshot dict that the module reads. A key that the
provider response does not contain is none. -/
structure SnapDict where
  dbSnapshotIdentifier : Option String
  status : Option String
  snapshotCreateTime : Option String
  availabilityZone : Option String
  dbInstanceIdentifier : Option String
  instanceCreateTime : Option String
  snapshotType : Option String
  iops : Option Int
  deriving Repr, DecidableEq

/-- A value passed to RDSSnapshot.__init__ (rds_snapshot.py lines 101-107):
either a plain snapshot dict or the DeleteDBSnapshotResponse wrapper around
one, which __init__ unwraps. -/
inductive SnapResponse where
  | plain (d : SnapDict)
  | deleteWrapper (d : SnapDict)
  deriving Repr, DecidableEq

/-- Python exceptions distinguished by the module code. providerError stands
for a botocore client error carrying a response with an error code and a
message; the other constructors are the builtin exceptions the module can
raise. -/
inductive PyErr where
  | nameError (n : String)
  | typeError (n : String)
  | attributeError (objType attr : String)
  | keyError (k : String)
  | indexError (i : Nat)
  | providerError (code msg : String)
  deriving Repr, DecidableEq

/-- The string e.message of a Python 2 exception, as interpolated by the
fail_json calls. For NameError the real text quotes the name; quotes are
dropped here. For a provider error the message field is carried verbatim. -/
def PyErr.message : PyErr → String
  | .nameError n => "global name " ++ n ++ " is not defined"
  | .typeError n => n ++ " object is not callable"
  | .attributeError t a => t ++ " object has no attribute " ++ a
  | .keyError k => k
  | .indexError _ => "list index out of range"
  | .providerError _ m => m

/-- Accessing e.response of a caught exception, as done at line 157.
Only a botocore client error (providerError) has a response attribute holding
the error code; on any other exception the access itself raises
AttributeError. -/
def PyErr.responseErrorCode : PyErr → Except PyErr String
  | .providerError c _ => .ok c
  | .nameError _ => .error (.attributeError "NameError" "response")
  | .typeError _ => .error (.attributeError "TypeError" "response")
  | .attributeError _ _ => .error (.attributeError "AttributeError" "response")
  | .keyError _ => .error (.attributeError "KeyError" "response")
  | .indexError _ => .error (.attributeError "IndexError" "response")

/-- One provider call actually issued on the wire, recorded in order. -/
inductive ProviderCall where
  | describeCall (snapshotId : String)
  | createCall (snapshotId instanceId : String)
  | deleteCall (snapshotId : String)
  deriving Repr, DecidableEq

def ProviderCall.isDelete : ProviderCall → Bool
  | .deleteCall _ => true
  | _ => false

def ProviderCall.isCreate : ProviderCall → Bool
  | .createCall _ _ => true
  | _ => false

def countDeleteCalls (l : List ProviderCall) : Nat :=
  (l.filter ProviderCall.isDelete).length

def countCreateCalls (l : List ProviderCall) : Nat :=
  (l.filter ProviderCall.isCreate).length

/-- The boto3 rds client as an oracle: the outcome of each call the module can
issue. describe_db_snapshots is called with DBSnapshotIdentifier and
SnapshotType manual and yields the snapshots matching the identifier;
create_db_snapshot takes DBSnapshotIdentifier and DBInstanceIdentifier;
delete_db_snapshot takes DBSnapshotIdentifier. An error outcome models the
call raising a botocore exception. -/
structure Conn where
  describe_db_snapshots : String → Except PyErr (List SnapResponse)
  create_db_snapshot : String → String → Except PyErr SnapDict
  delete_db_snapshot : String → Except PyErr SnapDict

/-- Names bound at module level in rds_snapshot.py when its body runs: the
doc strings, the time import, its own defs and its one class, plus the names
the star imports from ansible.module_utils.basic and ansible.module_utils.ec2
contribute that the module touches. The modelled fact, checked against those
sources, is that neither RDS2Snapshot nor params is bound by any of them. -/
def rdsSnapshotModuleGlobals : List String :=
  ["DOCUMENTATION", "EXAMPLES", "time",
   "get_db_snapshot", "delete_db_snapshot", "RDSSnapshot", "await_resource",
   "delete_snapshot", "snapshot_db_instance", "main",
   "AnsibleModule", "ec2_argument_spec", "get_aws_connection_info",
   "boto3_conn", "connect_to_aws"]

/-- Evaluation of a bare global name in rds_snapshot.py: the name itself when
it is bound, NameError when it is not. -/
def resolveModuleGlobal (n : String) : Except PyErr String :=
  if rdsSnapshotModuleGlobals.contains n then .ok n else .error (.nameError n)

/-- The RDSSnapshot instance built by __init__ (lines 100-107): keeps the
unwrapped dict and caches the DBSnapshotIdentifier and Status keys, read with
dict.get, hence none when absent. -/
structure RDSSnapshot where
  snapshot : SnapDict
  name : Option String
  status : Option String
  deriving Repr, DecidableEq

/-- RDSSnapshot.__init__ (lines 101-107): unwrap a DeleteDBSnapshotResponse
wrapper if present, then read DBSnapshotIdentifier and Status with .get. -/
def RDSSnapshot.ofResponse (s : SnapResponse) : RDSSnapshot :=
  let d := match s with
    | .plain d => d
    | .deleteWrapper d => d
  { snapshot := d, name := d.dbSnapshotIdentifier, status := d.status }

/-- Calling the resolved callee on the indexed response, as in the expression
at line 86. Among the module globals only RDSSnapshot is a snapshot class;
calling any other bound global there would raise TypeError. -/
def callGlobalAsSnapshotClass (n : String) (arg : SnapResponse) :
    Except PyErr RDSSnapshot :=
  if n = "RDSSnapshot" then .ok (RDSSnapshot.ofResponse arg)
  else .error (.typeError n)

/-- Python subscript snapshots[0] at line 86, modelled on the list of
snapshots: IndexError when the list is empty. -/
def listIndex (l : List SnapResponse) (i : Nat) : Except PyErr SnapResponse :=
  match l.get? i with
  | some x => .ok x
  | none => .error (.indexError i)

/-- get_db_snapshot (rds_snapshot.py lines 83-89). The try block issues the
describe call, then evaluates the callee name RDS2Snapshot (Python resolves
the callee before evaluating the argument snapshots[0]); that name is unbound,
so a NameError is raised inside the try block and the except-Exception handler
returns None. Any exception raised by the describe call itself is swallowed by
the same handler. The describe call is always issued, so it is always in the
trace. -/
def get_db_snapshot (conn : Conn) (snapshotid : String) :
    Option RDSSnapshot × List ProviderCall :=
  let calls := [ProviderCall.describeCall snapshotid]
  match conn.describe_db_snapshots snapshotid with
  | .error _ => (none, calls)
  | .ok snapshots =>
    match resolveModuleGlobal "RDS2Snapshot" with
    | .error _ => (none, calls)
    | .ok callee =>
      match listIndex snapshots 0 with
      | .error _ => (none, calls)
      | .ok arg =>
        match callGlobalAsSnapshotClass callee arg with
        | .error _ => (none, calls)
        | .ok r => (some r, calls)

/-- The validated module parameters of rds_snapshot.py (argument_spec at
lines 188-198): state defaults to present, snapshot is required,
instance_name is optional, wait defaults to false, wait_timeout to 300. -/
structure ModuleParams where
  state : String
  snapshot : String
  instance_name : Option String
  wait : Bool
  wait_timeout : Nat
  tags : Option (List (String × String))
  deriving Repr, DecidableEq

/-- Python truthiness of an optional string parameter: None and the empty
string are falsy. -/
def pyTruthy : Option String → Bool
  | none => false
  | some s => s != ""

/-- Python string interpolation of a value that may be None. -/
def pyStrOfOpt : Option String → String
  | none => "None"
  | some s => s

/-- The flattened output dict built by RDSSnapshot.get_data (lines 109-120).
The id and status fields come from .get reads and may be None; the rest are
read with [] indexing and raise KeyError when absent. -/
structure SnapOutData where
  id : Option String
  create_time : String
  status : Option String
  availability_zone : String
  instance_id : String
  instance_created : String
  snapshot_type : String
  iops : Int
  deriving Repr, DecidableEq

/-- Python dict [] indexing on a modelled key: KeyError when absent. -/
def dictKey {α : Type} (v : Option α) (k : String) : Except PyErr α :=
  match v with
  | some x => .ok x
  | none => .error (.keyError k)

/-- RDSSnapshot.get_data (lines 109-120): builds the output dict, indexing
the keys in source order, so the first absent key raises KeyError. -/
def RDSSnapshot.get_data (r : RDSSnapshot) : Except PyErr SnapOutData := do
  let ct ← dictKey r.snapshot.snapshotCreateTime "SnapshotCreateTime"
  let az ← dictKey r.snapshot.availabilityZone "AvailabilityZone"
  let di ← dictKey r.snapshot.dbInstanceIdentifier "DBInstanceIdentifier"
  let ic ← dictKey r.snapshot.instanceCreateTime "InstanceCreateTime"
  let st ← dictKey r.snapshot.snapshotType "SnapshotType"
  let ip ← dictKey r.snapshot.iops "Iops"
  pure { id := r.name, create_time := ct, status := r.status,
         availability_zone := az, instance_id := di, instance_created := ic,
         snapshot_type := st, iops := ip }

/-- The dynamically typed value the variable resource or result holds in the
module flow: the None returned by get_db_snapshot, an RDSSnapshot instance,
or the raw boto3 response dict returned by create_db_snapshot or
delete_db_snapshot. -/
inductive PyRes where
  | pyNone
  | obj (r : RDSSnapshot)
  | rawDict (d : SnapDict)
  deriving Repr, DecidableEq

/-- Attribute access resource.status: only an RDSSnapshot instance has it;
on None or on a raw dict the access raises AttributeError. -/
def PyRes.getStatus : PyRes → Except PyErr (Option String)
  | .obj r => .ok r.status
  | .pyNone => .error (.attributeError "NoneType" "status")
  | .rawDict _ => .error (.attributeError "dict" "status")

/-- Attribute access resource.name, same typing rules as getStatus. -/
def PyRes.getName : PyRes → Except PyErr (Option String)
  | .obj r => .ok r.name
  | .pyNone => .error (.attributeError "NoneType" "name")
  | .rawDict _ => .error (.attributeError "dict" "name")

/-- Attribute access resource.snapshot, used in the fail message at
line 131. -/
def PyRes.getSnapshotDict : PyRes → Except PyErr SnapDict
  | .obj r => .ok r.snapshot
  | .pyNone => .error (.attributeError "NoneType" "snapshot")
  | .rawDict _ => .error (.attributeError "dict" "snapshot")

/-- Method call resource.get_data() at line 184. -/
def PyRes.callGetData : PyRes → Except PyErr SnapOutData
  | .obj r => r.get_data
  | .pyNone => .error (.attributeError "NoneType" "get_data")
  | .rawDict _ => .error (.attributeError "dict" "get_data")

/-- Stand-in for the Python str() of a snapshot dict interpolated at
line 131. -/
def SnapDict.pyFormat (d : SnapDict) : String := reprStr d

/-- Lifts the Option String returned by get_db_snapshot into the dynamically
typed resource variable. -/
def pyResOfLookup : Option RDSSnapshot → PyRes
  | some r => PyRes.obj r
  | none => PyRes.pyNone

/-- How a call of await_resource ends: a normal return of the final resource
value, a fail_json raised inside the loop (which exits the module and is not
caught by an except-Exception around the call), or an uncaught Python
exception. -/
inductive AwaitOutcome where
  | ret (resource : PyRes)
  | failJson (msg : String)
  | raised (e : PyErr)
  deriving Repr, DecidableEq

def AwaitOutcome.isFailJson : AwaitOutcome → Bool
  | .failJson _ => true
  | _ => false

/-- The while loop of await_resource (lines 125-133), with deadline the
precomputed wait_timeout + time.time() of line 124 and t the current time.
Each iteration checks the loop condition (deadline strictly in the future and
status not yet the target, with Python short-circuit evaluation), sleeps 5
seconds, fails with the timeout message if the deadline has now passed, fails
if resource.name is None, and otherwise re-fetches the resource with
get_db_snapshot. All attribute accesses are evaluated in source order and an
AttributeError propagates out of the loop. -/
def await_loop (conn : Conn) (deadline : Nat) (target : String)
    (resource : PyRes) (t : Nat) : AwaitOutcome × List ProviderCall :=
  if _hdt : t < deadline then
    match resource.getStatus with
    | .error e => (.raised e, [])
    | .ok st =>
      if st = some target then (.ret resource, [])
      else
        if _hto : deadline ≤ t + 5 then
          match resource.getName with
          | .error e => (.raised e, [])
          | .ok n =>
            (.failJson ("Timeout waiting for RDS resource " ++ pyStrOfOpt n), [])
        else
          match resource.getName with
          | .error e => (.raised e, [])
          | .ok none =>
            match resource.getSnapshotDict with
            | .error e => (.raised e, [])
            | .ok d =>
              (.failJson ("There was a problem waiting for RDS snapshot "
                  ++ d.pyFormat), [])
          | .ok (some nm) =>
            let fetched := get_db_snapshot conn nm
            let next := await_loop conn deadline target
                (pyResOfLookup fetched.fst) (t + 5)
            (next.fst, fetched.snd ++ next.snd)
  else (.ret resource, [])
termination_by deadline - t
decreasing_by
  simp_wf
  omega

/-- await_resource (lines 123-133): computes the deadline from the
wait_timeout parameter and the current clock, then runs the loop. -/
def await_resource (conn : Conn) (resource : PyRes) (target : String)
    (params : ModuleParams) (now : Nat) : AwaitOutcome × List ProviderCall :=
  await_loop conn (params.wait_timeout + now) target resource now

/-- How one invocation of the module ends: exit_json with only a changed
flag (the delete path), exit_json with the changed flag and the snapshot
dict (the present path, line 184), fail_json with a message, or an uncaught
Python exception. -/
inductive ModuleResult where
  | exitChanged (changed : Bool)
  | exitSnapshot (changed : Bool) (snapshot : SnapOutData)
  | fail (msg : String)
  | crash (e : PyErr)
  deriving Repr, DecidableEq

/-- A successful (DONE) invocation: either exit_json form. -/
def ModuleResult.isSuccess : ModuleResult → Bool
  | .exitChanged _ => true
  | .exitSnapshot _ _ => true
  | _ => false

/-- An invocation that ends in an error surfaced to the caller. -/
def ModuleResult.isFailure : ModuleResult → Bool
  | .fail _ => true
  | .crash _ => true
  | _ => false

/-- Whether the result carries a resource record. -/
def ModuleResult.hasRecord : ModuleResult → Bool
  | .exitSnapshot _ _ => true
  | _ => false

/-- Whether the result carries the changed flag. -/
def ModuleResult.hasChangedFlag : ModuleResult → Bool
  | .exitChanged _ => true
  | .exitSnapshot _ _ => true
  | _ => false

/-- delete_snapshot (lines 136-160). Looks the snapshot up (the lookup
swallows every exception and, because of the RDS2Snapshot NameError, always
yields None), exits changed false when the lookup yields None or the status
is deleting, otherwise issues the delete call, failing on any exception from
it; without wait exits changed true; with wait runs await_resource on the raw
delete response. A fail_json inside await_resource raises SystemExit, which
the except-Exception at line 156 does not catch, so it exits the module; any
other exception reaches that handler, which reads e.response, itself raising
AttributeError on a non-client error (an uncaught crash). -/
def delete_snapshot (params : ModuleParams) (conn : Conn) (now : Nat) :
    ModuleResult × List ProviderCall :=
  match get_db_snapshot conn params.snapshot with
  | (none, calls) => (.exitChanged false, calls)
  | (some r, calls) =>
    if r.status = some "deleting" then (.exitChanged false, calls)
    else
      let callsToDelete := calls ++ [ProviderCall.deleteCall params.snapshot]
      match conn.delete_db_snapshot params.snapshot with
      | .error e =>
        (.fail ("Failed to delete snapshot: " ++ e.message), callsToDelete)
      | .ok d =>
        if params.wait = false then (.exitChanged true, callsToDelete)
        else
          let awaited := await_resource conn (PyRes.rawDict d) "deleted"
              params now
          let allCalls := callsToDelete ++ awaited.snd
          match awaited.fst with
          | .ret _ => (.exitChanged true, allCalls)
          | .failJson m => (.fail m, allCalls)
          | .raised e =>
            match e.responseErrorCode with
            | .ok code =>
              if code = "DBSnapshotNotFound" then (.exitChanged true, allCalls)
              else (.fail e.message, allCalls)
            | .error e2 => (.crash e2, allCalls)

/-- The exit_json call at line 184: evaluates resource.get_data() and exits
with the changed flag and the data; an exception from the evaluation is
uncaught. -/
def exit_with_data (changed : Bool) (resource : PyRes)
    (calls : List ProviderCall) : ModuleResult × List ProviderCall :=
  match resource.callGetData with
  | .ok d => (.exitSnapshot changed d, calls)
  | .error e => (.crash e, calls)

/-- The shared tail of snapshot_db_instance (lines 179-184): when wait is set
the resource is polled to available with await_resource, otherwise it is
re-fetched once with get_db_snapshot; then exit_json reports the changed flag
and resource.get_data(). Note the guard is the wait parameter alone; whether
a create was issued does not enter it. -/
def finish_present (params : ModuleParams) (conn : Conn) (now : Nat)
    (changed : Bool) (result : PyRes) (calls : List ProviderCall) :
    ModuleResult × List ProviderCall :=
  if params.wait then
    let awaited := await_resource conn result "available" params now
    let allCalls := calls ++ awaited.snd
    match awaited.fst with
    | .ret resource => exit_with_data changed resource allCalls
    | .failJson m => (.fail m, allCalls)
    | .raised e => (.crash e, allCalls)
  else
    let fetched := get_db_snapshot conn params.snapshot
    exit_with_data changed (pyResOfLookup fetched.fst) (calls ++ fetched.snd)

/-- snapshot_db_instance (lines 163-184). Fails first when instance_name is
falsy; then looks the snapshot up (always None, as above); on None it enters
the try block of the create call, whose keyword arguments end with **params:
Python evaluates the bound arguments and then the unbound global name params,
raising NameError before the provider call is issued; the except-Exception
handler turns it into fail_json with e.message. The create branch and the
lookup-hit branch are kept faithful although the NameError makes everything
after it dead code on every input. -/
def snapshot_db_instance (params : ModuleParams) (conn : Conn) (now : Nat) :
    ModuleResult × List ProviderCall :=
  if pyTruthy params.instance_name = false then
    (.fail "instance_name is required for rds_snapshot when state=present", [])
  else
    match get_db_snapshot conn params.snapshot with
    | (some r, calls) => finish_present params conn now false (PyRes.obj r) calls
    | (none, calls) =>
      match resolveModuleGlobal "params" with
      | .error e => (.fail e.message, calls)
      | .ok _ =>
        let inst := params.instance_name.getD ""
        match conn.create_db_snapshot params.snapshot inst with
        | .error e =>
          (.fail e.message,
           calls ++ [ProviderCall.createCall params.snapshot inst])
        | .ok d =>
          finish_present params conn now true (PyRes.rawDict d)
            (calls ++ [ProviderCall.createCall params.snapshot inst])

/-- The dispatch at the end of main (lines 211-214): state absent runs
delete_snapshot, anything else (the default present) runs
snapshot_db_instance. -/
def runModule (params : ModuleParams) (conn : Conn) (now : Nat) :
    ModuleResult × List ProviderCall :=
  if params.state = "absent" then delete_snapshot params conn now
  else snapshot_db_instance params conn now

/-- The validated parameters of rds_facts.py (argument_spec at lines 96-102):
both optional. -/
structure FactsParams where
  instance_name : Option String
  snapshot : Option String
  deriving Repr, DecidableEq

/-- Names bound at module level in rds_facts.py when its body runs. The
functions get_db_instance and get_db_snapshot called bare at lines 84 and 88
are methods of the RDSConnection class, not module globals, so those bare
names are unbound. -/
def rdsFactsModuleGlobals : List String :=
  ["DOCUMENTATION", "EXAMPLES", "HAS_BOTO3", "boto3", "RDSConnection",
   "facts_db_instance_or_snapshot", "main",
   "AnsibleModule", "ec2_argument_spec", "get_aws_connection_info",
   "connect_to_aws"]

/-- Evaluation of a bare global name in rds_facts.py. -/
def resolveFactsGlobal (n : String) : Except PyErr String :=
  if rdsFactsModuleGlobals.contains n then .ok n else .error (.nameError n)

/-- facts_db_instance_or_snapshot (rds_facts.py lines 77-92). When both
instance_name and snapshot are truthy it fails immediately with the
validation message, before anything touches the provider. On the remaining
branches the code calls the bare names get_db_instance or get_db_snapshot,
which are unbound module globals (they exist only as RDSConnection methods),
so a NameError is raised before any provider call; were such a name bound it
would not be callable there, a TypeError. With neither parameter given the
final line reads the never-assigned local resource, an UnboundLocalError,
modelled as a NameError. The connection object built in main is never
consulted on any path of this function, so it is not a parameter of the
embedding. -/
def facts_db_instance_or_snapshot (params : FactsParams) :
    ModuleResult × List ProviderCall :=
  if pyTruthy params.instance_name && pyTruthy params.snapshot then
    (.fail "rds_facts must be called with either instance_name or snapshot, not both",
     [])
  else if pyTruthy params.instance_name then
    match resolveFactsGlobal "get_db_instance" with
    | .error e => (.crash e, [])
    | .ok n => (.crash (.typeError n), [])
  else if pyTruthy params.snapshot then
    match resolveFactsGlobal "get_db_snapshot" with
    | .error e => (.crash e, [])
    | .ok n => (.crash (.typeError n), [])
  else
    (.crash (.nameError "resource"), [])

/-- A snapshot dict for a fully populated snapshot named s1 of instance db1
in status available. -/
def snapAvailable : SnapDict :=
  { dbSnapshotIdentifier := some "s1", status := some "available",
    snapshotCreateTime := some "2016-06-01T00:00:00Z",
    availabilityZone := some "us-east-1a",
    dbInstanceIdentifier := some "db1",
    instanceCreateTime := some "2016-01-01T00:00:00Z",
    snapshotType := some "manual", iops := some 1000 }

/-- The same snapshot while still being created. -/
def snapCreating : SnapDict :=
  { snapAvailable with status := some "creating" }

/-- The RDSSnapshot instance for the creating snapshot. -/
def rdsSnapCreating : RDSSnapshot :=
  RDSSnapshot.ofResponse (SnapResponse.plain snapCreating)

/-- A provider with no snapshot s1: describe raises the not-found client
error, create succeeds, delete raises not-found. -/
def connEmpty : Conn :=
  { describe_db_snapshots := fun _ =>
      .error (.providerError "DBSnapshotNotFound" "DBSnapshot not found"),
    create_db_snapshot := fun _ _ => .ok snapCreating,
    delete_db_snapshot := fun _ =>
      .error (.providerError "DBSnapshotNotFound" "DBSnapshot not found") }

/-- A provider on which describe raises a throttling client error, which is
not classified as not-found. -/
def connThrottle : Conn :=
  { describe_db_snapshots := fun _ =>
      .error (.providerError "Throttling" "Rate exceeded"),
    create_db_snapshot := fun _ _ => .ok snapCreating,
    delete_db_snapshot := fun _ => .ok snapAvailable }

/-- A provider on which snapshot s1 exists with status available. -/
def connHasAvailable : Conn :=
  { describe_db_snapshots := fun _ => .ok [SnapResponse.plain snapAvailable],
    create_db_snapshot := fun _ _ =>
      .error (.providerError "DBSnapshotAlreadyExists" "already exists"),
    delete_db_snapshot := fun _ => .ok snapAvailable }

/-- A provider on which s1 exists but vanishes before the delete call, so the
delete raises the not-found client error (the race of the claim about the
absent path). -/
def connDeleteRace : Conn :=
  { describe_db_snapshots := fun _ => .ok [SnapResponse.plain snapAvailable],
    create_db_snapshot := fun _ _ =>
      .error (.providerError "DBSnapshotAlreadyExists" "already exists"),
    delete_db_snapshot := fun _ =>
      .error (.providerError "DBSnapshotNotFound" "snapshot vanished") }

/-- The end-to-end scenario A request: present, snapshot s1 from instance
db1, wait with the default 300 second timeout. -/
def scenarioAParams : ModuleParams :=
  { state := "present", snapshot := "s1", instance_name := some "db1",
    wait := true, wait_timeout := 300, tags := none }

/-- A present request without wait. -/
def presentNoWaitParams : ModuleParams :=
  { scenarioAParams with wait := false }

/-- An absent request for snapshot s1 without wait. -/
def paramsAbsentS1 : ModuleParams :=
  { state := "absent", snapshot := "s1", instance_name := none,
    wait := false, wait_timeout := 300, tags := none }

/-- An absent request for snapshot s1 with wait. -/
def paramsAbsentS1Wait : ModuleParams :=
  { paramsAbsentS1 with wait := true }

/-- A wait request whose timeout parameter is zero, so the deadline equals
the clock at entry and has already passed when the first poll would start. -/
def paramsWaitZero : ModuleParams :=
  { scenarioAParams with wait_timeout := 0 }

/-- A present request lacking the instance_name parameter. -/
def paramsPresentNoInstance : ModuleParams :=
  { state := "present", snapshot := "s2", instance_name := none,
    wait := false, wait_timeout := 300, tags := none }

/-- A facts request supplying both instance_name and snapshot. -/
def factsBoth : FactsParams :=
  { instance_name := some "db1", snapshot := some "s1" }

/-- The name RDS2Snapshot called at line 86 is not bound in the module
namespace, so evaluating it raises NameError. -/
theorem rds2snapshot_unbound :
    resolveModuleGlobal "RDS2Snapshot"
      = Except.error (PyErr.nameError "RDS2Snapshot") := rfl

/-- The name params splatted at line 174 is not bound in the module
namespace, so evaluating it raises NameError. -/
theorem params_unbound :
    resolveModuleGlobal "params" = Except.error (PyErr.nameError "params") := rfl

/-- On every connection and every identifier, get_db_snapshot returns None
after the single describe call: the NameError on RDS2Snapshot, or any
exception of the describe call itself, lands in the catch-all handler. -/
theorem get_db_snapshot_eq (conn : Conn) (sid : String) :
    get_db_snapshot conn sid = (none, [ProviderCall.describeCall sid]) := by
  unfold get_db_snapshot
  cases conn.describe_db_snapshots sid with
  | error e => rfl
  | ok snaps => rfl

/-- Because the lookup always yields None, every invocation of
delete_snapshot exits changed false after the single describe call. -/
theorem delete_snapshot_eq (p : ModuleParams) (conn : Conn) (t : Nat) :
    delete_snapshot p conn t
      = (ModuleResult.exitChanged false,
         [ProviderCall.describeCall p.snapshot]) := by
  unfold delete_snapshot
  rw [get_db_snapshot_eq]

/-- With a truthy instance_name, every invocation of snapshot_db_instance
fails on the NameError for the unbound global params, after the single
describe call of the lookup and before any create call. -/
theorem snapshot_db_instance_eq (p : ModuleParams) (conn : Conn) (t : Nat)
    (h : pyTruthy p.instance_name = true) :
    snapshot_db_instance p conn t
      = (ModuleResult.fail "global name params is not defined",
         [ProviderCall.describeCall p.snapshot]) := by
  unfold snapshot_db_instance
  rw [h, get_db_snapshot_eq]
  rfl

/-- C1: evaluation of the code at the failing input of end-to-end scenario A.
The claim says the request (present, snapshot s1, source db1, wait) against a
provider without s1 issues exactly one create call, polls to available and
exits changed true with an available record. The code instead fails with the
NameError on the unbound global params, raised while evaluating the keyword
arguments of the create call, so no create call is ever issued and the
invocation is not a success. -/
theorem c1_scenarioA_fails_no_create :
    runModule scenarioAParams connEmpty 0
      = (ModuleResult.fail "global name params is not defined",
         [ProviderCall.describeCall "s1"]) ∧
    countCreateCalls (runModule scenarioAParams connEmpty 0).snd = 0 ∧
    (runModule scenarioAParams connEmpty 0).fst.isSuccess = false :=
  ⟨rfl, rfl, rfl⟩

/-- C2: for every connection and every snapshot id, get_db_snapshot returns
None, whatever the describe call returns, because the record constructor name
RDS2Snapshot it invokes is not bound in the module namespace and the
NameError lands in the catch-all handler. -/
theorem c2_get_db_snapshot_always_none (conn : Conn) (sid : String) :
    (get_db_snapshot conn sid).fst = none ∧
    resolveModuleGlobal "RDS2Snapshot"
      = Except.error (PyErr.nameError "RDS2Snapshot") := by
  refine ⟨?_, rds2snapshot_unbound⟩
  rw [get_db_snapshot_eq]

/-- C3 counterexample: on a provider whose describe call raises a throttling
error, which is not classified as not-found, the absent-path invocation does
not fail: it exits successfully with changed false, refuting the claim that a
non-not-found lookup error is propagated immediately. -/
theorem c3_counterexample :
    connThrottle.describe_db_snapshots "s1"
      = Except.error (PyErr.providerError "Throttling" "Rate exceeded") ∧
    runModule paramsAbsentS1 connThrottle 0
      = (ModuleResult.exitChanged false, [ProviderCall.describeCall "s1"]) ∧
    (runModule paramsAbsentS1 connThrottle 0).fst.isFailure = false :=
  ⟨rfl, rfl, rfl⟩

/-- C3 amended: during lookup, every exception of the describe call, whether
classified not-found or not, is swallowed by the catch-all handler of
get_db_snapshot and becomes the absence value None, and the absent path then
proceeds to its changed-false exit instead of failing. -/
theorem c3_amended_lookup_errors_swallowed (p : ModuleParams) (conn : Conn)
    (t : Nat) (e : PyErr)
    (_hd : conn.describe_db_snapshots p.snapshot = Except.error e) :
    (get_db_snapshot conn p.snapshot).fst = none ∧
    delete_snapshot p conn t
      = (ModuleResult.exitChanged false,
         [ProviderCall.describeCall p.snapshot]) := by
  refine ⟨?_, delete_snapshot_eq p conn t⟩
  rw [get_db_snapshot_eq]

/-- C3 amended witness at a concrete throttled provider. -/
theorem c3_amended_witness :
    (get_db_snapshot connThrottle paramsAbsentS1.snapshot).fst = none ∧
    delete_snapshot paramsAbsentS1 connThrottle 0
      = (ModuleResult.exitChanged false,
         [ProviderCall.describeCall paramsAbsentS1.snapshot]) :=
  c3_amended_lookup_errors_swallowed paramsAbsentS1 connThrottle 0
    (PyErr.providerError "Throttling" "Rate exceeded") rfl

/-- C4 counterexample: with a zero wait_timeout the deadline has already
passed when the first poll would start and the resource status creating is
not the target available, yet await_resource returns the resource without any
timeout failure, refuting the claim that the operation fails immediately in
that situation. -/
theorem c4_counterexample :
    paramsWaitZero.wait_timeout + 7 ≤ 7 ∧
    PyRes.getStatus (PyRes.obj rdsSnapCreating) = Except.ok (some "creating") ∧
    await_resource connEmpty (PyRes.obj rdsSnapCreating) "available"
        paramsWaitZero 7
      = (AwaitOutcome.ret (PyRes.obj rdsSnapCreating), []) ∧
    (await_resource connEmpty (PyRes.obj rdsSnapCreating) "available"
        paramsWaitZero 7).fst.isFailJson = false := by
  refine ⟨by decide, rfl, ?_, ?_⟩ <;>
    simp [await_resource, await_loop, paramsWaitZero, scenarioAParams,
      AwaitOutcome.isFailJson]

/-- C4 amended: the deadline is checked before each sleep only as the loop
condition, so when the deadline has already passed at a poll start the loop
exits returning the last observed resource with no error; the timeout failure
is raised only by the re-check after a sleep, and its message names the
resource id but not the last observed status. -/
theorem c4_amended_deadline_behavior :
    (∀ (conn : Conn) (resource : PyRes) (target : String) (deadline t : Nat),
        deadline ≤ t →
        await_loop conn deadline target resource t
          = (AwaitOutcome.ret resource, [])) ∧
    (∀ (conn : Conn) (r : RDSSnapshot) (target : String) (deadline t : Nat),
        t < deadline → deadline ≤ t + 5 → r.status ≠ some target →
        await_loop conn deadline target (PyRes.obj r) t
          = (AwaitOutcome.failJson
              ("Timeout waiting for RDS resource " ++ pyStrOfOpt r.name),
             [])) := by
  constructor
  · intro conn resource target deadline t h
    rw [await_loop]
    rw [dif_neg (Nat.not_lt.mpr h)]
  · intro conn r target deadline t h1 h2 h3
    rw [await_loop]
    rw [dif_pos h1]
    simp only [PyRes.getStatus, PyRes.getName, if_neg h3, dif_pos h2]

/-- C4 amended witness at concrete clocks: an expired deadline returns the
creating resource unchanged, and a first-iteration expiry fails with the
message naming only the resource id. -/
theorem c4_amended_witness :
    await_loop connEmpty 5 "available" (PyRes.obj rdsSnapCreating) 9
      = (AwaitOutcome.ret (PyRes.obj rdsSnapCreating), []) ∧
    await_loop connEmpty 4 "available" (PyRes.obj rdsSnapCreating) 0
      = (AwaitOutcome.failJson
          ("Timeout waiting for RDS resource "
            ++ pyStrOfOpt rdsSnapCreating.name), []) :=
  ⟨c4_amended_deadline_behavior.1 connEmpty (PyRes.obj rdsSnapCreating)
      "available" 5 9 (by omega),
   c4_amended_deadline_behavior.2 connEmpty rdsSnapCreating
      "available" 4 0 (by omega) (by omega) (by decide)⟩

/-- C5: evaluation of the code at the failing input of the present-path
idempotency claim. On a provider where snapshot s1 exists with status
available, a present request must be a no-op: zero create calls, changed
false, the existing record returned. The code instead fails: the lookup still
returns None (its RDS2Snapshot NameError is swallowed), so the create branch
runs and dies on the NameError for the unbound global params. -/
theorem c5_present_existing_still_fails :
    connHasAvailable.describe_db_snapshots "s1"
      = Except.ok [SnapResponse.plain snapAvailable] ∧
    runModule presentNoWaitParams connHasAvailable 0
      = (ModuleResult.fail "global name params is not defined",
         [ProviderCall.describeCall "s1"]) ∧
    (runModule presentNoWaitParams connHasAvailable 0).fst.isSuccess = false :=
  ⟨rfl, rfl, rfl⟩

/-- C6: evaluation of the code at the failing input of the delete-race claim.
On a provider where s1 exists and the delete call would raise the not-found
client error, the claim expects the delete to be issued and the race to be
treated as success with changed true. The code never issues the delete: the
lookup returns None on every input, so the invocation exits changed false
after the describe call alone. -/
theorem c6_delete_race_path_unreachable :
    connDeleteRace.describe_db_snapshots "s1"
      = Except.ok [SnapResponse.plain snapAvailable] ∧
    connDeleteRace.delete_db_snapshot "s1"
      = Except.error
          (PyErr.providerError "DBSnapshotNotFound" "snapshot vanished") ∧
    runModule paramsAbsentS1Wait connDeleteRace 0
      = (ModuleResult.exitChanged false, [ProviderCall.describeCall "s1"]) ∧
    countDeleteCalls (runModule paramsAbsentS1Wait connDeleteRace 0).snd = 0 :=
  ⟨rfl, rfl, rfl, rfl⟩

/-- C7: an absent request against a provider where the snapshot does not
exist, or exists with status deleting, issues zero delete calls and exits
successfully with changed false. In this code the conclusion holds for every
provider, because the lookup always yields the absence value. -/
theorem c7_absent_idempotent (p : ModuleParams) (conn : Conn) (t : Nat)
    (hstate : p.state = "absent")
    (_hprov : (∃ m, conn.describe_db_snapshots p.snapshot
                = Except.error (PyErr.providerError "DBSnapshotNotFound" m))
        ∨ (∃ d rest, conn.describe_db_snapshots p.snapshot
                = Except.ok (SnapResponse.plain d :: rest)
              ∧ d.status = some "deleting")) :
    runModule p conn t
      = (ModuleResult.exitChanged false,
         [ProviderCall.describeCall p.snapshot]) ∧
    countDeleteCalls (runModule p conn t).snd = 0 := by
  have h1 : runModule p conn t = delete_snapshot p conn t := by
    unfold runModule
    rw [hstate, if_pos rfl]
  rw [h1, delete_snapshot_eq]
  exact ⟨rfl, rfl⟩

/-- C7 witness: the absent request for s1 against the empty provider. -/
theorem c7_absent_idempotent_witness :
    runModule paramsAbsentS1 connEmpty 0
      = (ModuleResult.exitChanged false, [ProviderCall.describeCall "s1"]) ∧
    countDeleteCalls (runModule paramsAbsentS1 connEmpty 0).snd = 0 :=
  c7_absent_idempotent paramsAbsentS1 connEmpty 0 rfl
    (Or.inl ⟨"DBSnapshot not found", rfl⟩)

/-- C8: evaluation of the code at the input by which the claim illustrates
the wait-and-mutation condition: a present request with wait set against a
provider where the snapshot already exists. The claim expects a no-op with no
poll loop. The code cannot take that no-op path on any input: the lookup
returns None, the create branch fails on the unbound global params before the
wait block at line 179 is reached, and the trace holds only the single lookup
describe, no create and no poll. Structurally that wait block is guarded by
the wait parameter alone, not by wait and a mutation. -/
theorem c8_wait_guard_never_reached :
    scenarioAParams.wait = true ∧
    runModule scenarioAParams connHasAvailable 0
      = (ModuleResult.fail "global name params is not defined",
         [ProviderCall.describeCall "s1"]) ∧
    countCreateCalls (runModule scenarioAParams connHasAvailable 0).snd = 0 :=
  ⟨rfl, rfl, rfl⟩

/-- C9 counterexample: the absent request for s1 against the empty provider
ends in a successful DONE result that carries no resource record at all,
refuting the claim that every successful result contains the final record
together with the changed flag. -/
theorem c9_counterexample :
    (runModule paramsAbsentS1 connEmpty 0).fst.isSuccess = true ∧
    (runModule paramsAbsentS1 connEmpty 0).fst.hasRecord = false :=
  ⟨rfl, rfl⟩

/-- C9 amended: every absent-path invocation ends in a successful result that
carries the changed flag but never a resource record; a record accompanies
only the exit of the present path. -/
theorem c9_amended_absent_success_has_no_record (p : ModuleParams)
    (conn : Conn) (t : Nat) :
    (delete_snapshot p conn t).fst.isSuccess = true ∧
    (delete_snapshot p conn t).fst.hasChangedFlag = true ∧
    (delete_snapshot p conn t).fst.hasRecord = false := by
  rw [delete_snapshot_eq]
  exact ⟨rfl, rfl, rfl⟩

/-- C10: validation precedes every provider call: a present request with a
falsy instance_name fails immediately with the validation message and an
empty provider-call trace, and a facts request supplying both instance_name
and snapshot fails immediately with its validation message and an empty
trace. -/
theorem c10_validation_before_provider_calls :
    (∀ (p : ModuleParams) (conn : Conn) (t : Nat),
        p.state = "present" → pyTruthy p.instance_name = false →
        runModule p conn t
          = (ModuleResult.fail
              "instance_name is required for rds_snapshot when state=present",
             [])) ∧
    (∀ fp : FactsParams,
        pyTruthy fp.instance_name = true → pyTruthy fp.snapshot = true →
        facts_db_instance_or_snapshot fp
          = (ModuleResult.fail
              "rds_facts must be called with either instance_name or snapshot, not both",
             [])) := by
  constructor
  · intro p conn t hs hi
    unfold runModule
    rw [hs, if_neg (by decide)]
    unfold snapshot_db_instance
    rw [hi, if_pos rfl]
  · intro fp hi hs
    unfold facts_db_instance_or_snapshot
    rw [hi, hs]
    rfl

/-- C10 witness: the concrete present request without instance_name and the
concrete facts request with both parameters. -/
theorem c10_validation_witness :
    runModule paramsPresentNoInstance connEmpty 0
      = (ModuleResult.fail
          "instance_name is required for rds_snapshot when state=present",
         []) ∧
    facts_db_instance_or_snapshot factsBoth
      = (ModuleResult.fail
          "rds_facts must be called with either instance_name or snapshot, not both",
         []) :=
  ⟨c10_validation_before_provider_calls.1 paramsPresentNoInstance connEmpty 0
      rfl rfl,
   c10_validation_before_provider_calls.2 factsBoth rfl rfl⟩
